import Mathlib

/-!
Verification of the alert-engine specification of the executive reporting
dashboard against its source.  The repository's checked-in code is the React
frontend (`frontend/src`): service layers (`api.ts`, `alertsService.ts`,
`dashboardService.ts`) and pages (`Alerts.tsx`, `Dashboard.tsx`,
`TimeTracking.tsx`).  The backend alert lifecycle store, detection rules and
risk scoring are not part of the checked-in sources; where a claim turns on
that missing backend, the corresponding definition is modelled from the
spec's words and marked `Modelled from the spec:` in its doc comment.
All other definitions are shallow embeddings of the frontend source.
-/

namespace AlertEngine

/-- Severity levels of an alert, from the `Alert` interface in
`alertsService.ts` (`critical | high | medium | low | info`). -/
inductive Severity where
  | critical
  | high
  | medium
  | low
  | info
deriving DecidableEq, Repr

/-- Status values of an alert, from the `Alert` interface in
`alertsService.ts` (`active | acknowledged | resolved | suppressed`). -/
inductive Status where
  | active
  | acknowledged
  | resolved
  | suppressed
deriving DecidableEq, Repr

/-- Dedup key of an alert: the (alert_type, source-entity) pair the spec keys
the lifecycle store by. -/
structure AlertKey where
  alert_type : String
  source_entity : String
deriving DecidableEq, Repr

/-- An alert record, following the `Alert` interface of `alertsService.ts`
and the spec's §3 Alert entity.  Timestamps are modelled as natural numbers,
optional fields as `Option`, and the free-form context snapshot as a list of
key-value pairs. -/
structure Alert where
  id : String
  key : AlertKey
  severity : Severity
  status : Status
  title : String
  description : String
  recommendation : Option String
  context_data : List (String × String)
  first_detected : Nat
  last_updated : Nat
  acknowledged_at : Option Nat
  acknowledged_by : Option String
  resolved_at : Option Nat
  resolved_by : Option String
  auto_resolve : Bool
deriving DecidableEq, Repr

/-- A candidate alert observation emitted by a detection rule, carrying the
dedup key and enough context to build the context snapshot (spec §4.1). -/
structure Candidate where
  key : AlertKey
  severity : Severity
  title : String
  description : String
  context : List (String × String)
  auto_resolve : Bool
deriving DecidableEq, Repr

/-- Number of alerts in a store that are active and carry the given key. -/
def activeCount (store : List Alert) (k : AlertKey) : Nat :=
  (store.filter (fun a => a.key = k ∧ a.status = Status.active)).length

/-- A store satisfies the spec's uniqueness invariant when no key has two
active alerts. -/
def AtMostOneActive (store : List Alert) : Prop :=
  ∀ k, activeCount store k ≤ 1

/-- Whether the store already holds an active alert for the key
(the spec's query-before-insert lookup in `reconcile`). -/
def hasActiveForKey (store : List Alert) (k : AlertKey) : Bool :=
  store.any (fun a => a.key = k ∧ a.status = Status.active)

/-- Modelled from the spec: the backend lifecycle store's per-candidate
reconciliation step (spec §4.2), absent from the checked-in frontend
sources.  A candidate whose key already has an active alert updates that
alert's `last_updated` and context snapshot, leaving status unchanged;
otherwise a fresh active alert is created with `first_detected = now`. -/
def reconcileCandidate (now : Nat) (store : List Alert) (c : Candidate) :
    List Alert :=
  if hasActiveForKey store c.key then
    store.map (fun a =>
      if a.key = c.key ∧ a.status = Status.active then
        { a with last_updated := now, context_data := c.context }
      else a)
  else
    store ++ [{ id := c.key.alert_type ++ ":" ++ c.key.source_entity
              , key := c.key
              , severity := c.severity
              , status := Status.active
              , title := c.title
              , description := c.description
              , recommendation := none
              , context_data := c.context
              , first_detected := now
              , last_updated := now
              , acknowledged_at := none
              , acknowledged_by := none
              , resolved_at := none
              , resolved_by := none
              , auto_resolve := c.auto_resolve }]

/-- Modelled from the spec: the auto-resolution policy applied at the end of
a reconciliation pass (spec §4.2 and the state machine): a non-terminal
alert whose key is absent from the candidate set and whose `auto_resolve`
flag is set transitions to resolved with `resolved_by = "system"` and
`resolved_at = now`. -/
def autoResolveStep (now : Nat) (candKeys : List AlertKey) (a : Alert) :
    Alert :=
  if (a.status = Status.active ∨ a.status = Status.acknowledged) ∧
      a.auto_resolve = true ∧ candKeys.contains a.key = false then
    { a with status := Status.resolved
           , resolved_at := some now
           , resolved_by := some "system"
           , last_updated := now }
  else a

/-- Modelled from the spec: a full reconciliation pass (spec §4.2): each
candidate is reconciled in turn against the evolving store, then alerts
whose condition is absent from the candidate set are auto-resolved. -/
def reconcile (now : Nat) (cands : List Candidate) (store : List Alert) :
    List Alert :=
  (cands.foldl (reconcileCandidate now) store).map
    (autoResolveStep now (cands.map (fun c => c.key)))

/-- Errors surfaced by the lifecycle store's mutations (spec §7). -/
inductive AlertError where
  | notFound
  | invalidTransition
deriving DecidableEq, Repr

/-- Lookup of an alert by identifier. -/
def findAlert (store : List Alert) (alertId : String) : Option Alert :=
  store.find? (fun a => a.id = alertId)

/-- The store after recording an acknowledgement on the alert with the
given identifier: status becomes acknowledged, acknowledged_at/by are
set. -/
def ackStore (now : Nat) (actor alertId : String) (store : List Alert) :
    List Alert :=
  store.map (fun b =>
    if b.id = alertId then
      { b with status := Status.acknowledged
             , acknowledged_at := some now
             , acknowledged_by := some actor }
    else b)

/-- Modelled from the spec: `acknowledge(alertId, actor)` (spec §4.2),
absent from the checked-in frontend sources, which only issue the HTTP call
(`alertsService.acknowledgeAlert`).  Fails with NotFound when no alert has
the identifier, with InvalidTransition when its status is not active, and
otherwise records the acknowledgement. -/
def acknowledge (now : Nat) (actor : String) (alertId : String)
    (store : List Alert) : Except AlertError (List Alert) :=
  match findAlert store alertId with
  | none => Except.error AlertError.notFound
  | some a =>
    if a.status = Status.active then
      Except.ok (ackStore now actor alertId store)
    else
      Except.error AlertError.invalidTransition

/-- Alerts whose `first_detected` falls inside the lookback window of
`daysBack` days before `now` (timestamps in seconds). -/
def windowAlerts (now daysBack : Nat) (alerts : List Alert) : List Alert :=
  alerts.filter (fun a => now - daysBack * 86400 ≤ a.first_detected)

/-- Number of resolved alerts in a list. -/
def resolvedCount (l : List Alert) : Nat :=
  (l.filter (fun a => a.status = Status.resolved)).length

/-- Number of unresolved (not-resolved) alerts in a list. -/
def unresolvedCount (l : List Alert) : Nat :=
  (l.filter (fun a => ¬ a.status = Status.resolved)).length

/-- Modelled from the spec: the resolution rate of the summary block
(spec §4.2 and §8), computed by the backend, absent from the checked-in
frontend sources: resolved / (resolved + unresolved) as a percentage, with
an empty window defined as 100%. -/
def resolutionRate (l : List Alert) : ℚ :=
  if resolvedCount l + unresolvedCount l = 0 then 100
  else 100 * (resolvedCount l : ℚ) / ((resolvedCount l : ℚ) + unresolvedCount l)

/-- The summary block of the alerts list response, following the `summary`
field of `AlertsResponse` in `alertsService.ts`. -/
structure ListSummary where
  total_alerts : Nat
  critical_alerts : Nat
  unresolved_alerts : Nat
  resolution_rate : ℚ
deriving DecidableEq, Repr

/-- Modelled from the spec: the summary block computed by `list(filters)`
over the lookback window (spec §4.2), absent from the checked-in frontend
sources. -/
def listSummary (now daysBack : Nat) (alerts : List Alert) : ListSummary :=
  let w := windowAlerts now daysBack alerts
  { total_alerts := w.length
  , critical_alerts := (w.filter (fun a => a.severity = Severity.critical)).length
  , unresolved_alerts := unresolvedCount w
  , resolution_rate := resolutionRate w }

/-- Input snapshot for risk scoring: ticket counts, deployment outcomes and
per-member utilization percentages (spec §4.3). -/
structure RiskInput where
  stalled_tickets : Nat
  overdue_tickets : Nat
  total_active_tickets : Nat
  deployment_total : Nat
  deployment_failed : Nat
  quality_alerts : Nat
  utilizations : List ℚ
deriving DecidableEq, Repr

/-- Clamp of a raw dimension score to the [1,10] range (spec §4.3). -/
def clampScore (x : ℚ) : ℚ := max 1 (min 10 x)

/-- Modelled from the spec: the delivery dimension score — stalled and
overdue counts normalized against the total active ticket count, pushed
toward 10 as the ratio grows, clamped to [1,10] (spec §4.3). -/
def deliveryScore (i : RiskInput) : ℚ :=
  if i.total_active_tickets = 0 then 1
  else clampScore (1 + 9 *
    (((i.stalled_tickets : ℚ) + i.overdue_tickets) / i.total_active_tickets))

/-- Deployment failure rate over the lookback window: failed / total, with
no deployments counting as rate 0. -/
def deploymentFailureRate (i : RiskInput) : ℚ :=
  if i.deployment_total = 0 then 0
  else (i.deployment_failed : ℚ) / i.deployment_total

/-- Modelled from the spec: the quality dimension score — a function of the
deployment failure rate and the quality-risk alert count, clamped to [1,10]
(spec §4.3). -/
def qualityScore (i : RiskInput) : ℚ :=
  clampScore (1 + 9 * deploymentFailureRate i + i.quality_alerts)

/-- Whether a member's utilization percentage lies outside the 80–110%
band (spec §4.3 and the band labels rendered in `TimeTracking.tsx`). -/
def outsideBand (u : ℚ) : Bool :=
  decide (u < 80) || decide (110 < u)

/-- Fraction of team members whose utilization lies outside the 80–110%
band; an empty team counts as fraction 0. -/
def fractionOutside (l : List ℚ) : ℚ :=
  if l.length = 0 then 0 else (l.countP outsideBand : ℚ) / l.length

/-- Modelled from the spec: the resource dimension score — a function of
the fraction of members outside the 80–110% utilization band, clamped to
[1,10] (spec §4.3). -/
def resourceScore (l : List ℚ) : ℚ :=
  clampScore (1 + 9 * fractionOutside l)

/-- Rounding to one decimal place, as the spec requires for the overall
score (spec §4.3). -/
def roundTo1 (x : ℚ) : ℚ := (round (10 * x) : ℚ) / 10

/-- The three dimension scores plus the overall score (spec §3 RiskScore). -/
structure RiskScores where
  delivery : ℚ
  quality : ℚ
  resource : ℚ
  overall : ℚ
deriving DecidableEq, Repr

/-- Modelled from the spec: the full risk scoring computation — three
dimension scores and their equal-weight average rounded to one decimal
(spec §4.3), absent from the checked-in frontend sources. -/
def riskScores (i : RiskInput) : RiskScores :=
  { delivery := deliveryScore i
  , quality := qualityScore i
  , resource := resourceScore i.utilizations
  , overall := roundTo1 ((deliveryScore i + qualityScore i +
      resourceScore i.utilizations) / 3) }

/-- Classification of a member's utilization, following the band labels of
the Utilization Status card in `TimeTracking.tsx` (under-utilized below
80%, optimal 80–110%, over-utilized above 110%). -/
inductive UtilStatus where
  | under
  | optimal
  | over
deriving DecidableEq, Repr

/-- Modelled from the spec: per-member utilization classification against
the 80–110% band; the per-member computation is backend code, the band
boundaries are those displayed in `TimeTracking.tsx` and used by
`Dashboard.tsx`. -/
def utilizationStatus (u : ℚ) : UtilStatus :=
  if u < 80 then UtilStatus.under
  else if u ≤ 110 then UtilStatus.optimal
  else UtilStatus.over

/-- Colors accepted by the `KPICard` component (`KPICard.tsx`). -/
inductive KPIColor where
  | blue
  | green
  | yellow
  | red
  | purple
  | gray
deriving DecidableEq, Repr

/-- Color of the Team Utilization KPI card in `Dashboard.tsx`: green when
the utilization is between 80 and 110 inclusive, yellow otherwise. -/
def teamUtilizationColor (u : ℚ) : KPIColor :=
  if 80 ≤ u ∧ u ≤ 110 then KPIColor.green else KPIColor.yellow

/-- The Authorization header attached by the request interceptor in
`api.ts`: `Bearer <token>` when the stored token is truthy (JavaScript
truthiness, so a stored empty string attaches nothing), none otherwise. -/
def authHeader (token : Option String) : Option String :=
  match token with
  | none => none
  | some s => if s = "" then none else some ("Bearer " ++ s)

/-- Browser-visible state touched by the response interceptor in `api.ts`:
the stored auth token and the current location. -/
structure BrowserState where
  auth_token : Option String
  href : String
deriving DecidableEq, Repr

/-- The response-error interceptor in `api.ts`: on HTTP status 401 the
stored auth token is removed and the browser navigates to /login; any
other error leaves the browser state unchanged. -/
def handleResponseError (status : Option Nat) (b : BrowserState) :
    BrowserState :=
  if status = some 401 then { auth_token := none, href := "/login" } else b

/-- The acknowledge request issued by the alerts service: alert id plus the
acknowledging actor (`alertsService.acknowledgeAlert`). -/
structure AckCall where
  alert_id : String
  acknowledged_by : String
deriving DecidableEq, Repr

/-- The `handleAcknowledgeAlert` handler of `Alerts.tsx`: it calls
`alertsService.acknowledgeAlert(alertId, 'CEO')` with the constant actor
string `CEO`. -/
def handleAcknowledgeAlert (alertId : String) : AckCall :=
  { alert_id := alertId, acknowledged_by := "CEO" }

/-- The `urgent_items` block of the executive summary
(`dashboardService.ts`), restricted to the numeric fields the banner
condition reads. -/
structure UrgentItems where
  critical_alerts : Nat
  failed_deployments : Nat
  overdue_tickets : Nat
deriving DecidableEq, Repr

/-- The `hasUrgentIssues` condition of `Dashboard.tsx`: critical alerts
above zero, or failed deployments above zero, or overdue tickets above
ten. -/
def hasUrgentIssues (u : UrgentItems) : Bool :=
  decide (0 < u.critical_alerts) || decide (0 < u.failed_deployments) ||
    decide (10 < u.overdue_tickets)

/-- Whether `Dashboard.tsx` renders the critical-issues `AlertBanner`: the
summary must be loaded and `hasUrgentIssues` must hold. -/
def alertBannerRendered (data : Option UrgentItems) : Bool :=
  match data with
  | none => false
  | some u => hasUrgentIssues u

/-- Field names of the `Alert` interface in `alertsService.ts`, in source
order: the REST representation of an alert as consumed by the frontend. -/
def alertInterfaceFields : List String :=
  ["id", "alert_type", "severity", "status", "title", "description",
   "recommendation", "jira_ticket_key", "project_key", "assignee", "client",
   "context_data", "first_detected", "last_updated", "acknowledged_at",
   "acknowledged_by", "resolved_at", "resolved_by", "auto_resolve"]

/-- Modelled from the spec: the fields itemized in §3's Alert entity,
written with the source's concrete field names (identifier ↦ id, ticket
key ↦ jira_ticket_key, context snapshot ↦ context_data; acknowledged_at/by
and resolved_at/by each contribute two fields). -/
def specAlertFields : List String :=
  ["id", "alert_type", "severity", "status", "title", "description",
   "recommendation", "jira_ticket_key", "project_key", "client",
   "context_data", "first_detected", "last_updated", "acknowledged_at",
   "acknowledged_by", "resolved_at", "resolved_by", "auto_resolve"]

/-- Sample dedup key used to instantiate the lifecycle theorems. -/
def sampleKey : AlertKey :=
  { alert_type := "stalled_ticket", source_entity := "PROJ-1" }

/-- Sample candidate observation used to instantiate the lifecycle
theorems. -/
def sampleCandidate : Candidate :=
  { key := sampleKey
  , severity := Severity.high
  , title := "Ticket PROJ-1 stalled"
  , description := "stalled for 7 days"
  , context := [("days_in_status", "7")]
  , auto_resolve := true }

/-- Sample active auto-resolvable alert used to instantiate the lifecycle
theorems. -/
def sampleActiveAlert : Alert :=
  { id := "a1"
  , key := sampleKey
  , severity := Severity.high
  , status := Status.active
  , title := "Ticket PROJ-1 stalled"
  , description := "stalled for 7 days"
  , recommendation := none
  , context_data := [("days_in_status", "7")]
  , first_detected := 1
  , last_updated := 1
  , acknowledged_at := none
  , acknowledged_by := none
  , resolved_at := none
  , resolved_by := none
  , auto_resolve := true }

/-- Claim C5, counterexample: the claim says the REST representation
exposes no field beyond the spec's itemized Alert entity, but the `Alert`
interface of `alertsService.ts` exposes an `assignee` field, which is not
among the spec's itemized fields. -/
theorem claim_C5_counterexample :
    "assignee" ∈ alertInterfaceFields ∧ "assignee" ∉ specAlertFields := by
  decide

/-- Claim C5 (amended): the REST representation of an Alert consists of
exactly the fields itemized in the spec's Alert entity plus one additional
optional `assignee` field (inserted between `project_key` and `client`);
no itemized field is omitted. -/
theorem claim_C5_fields :
    alertInterfaceFields =
      specAlertFields.take 9 ++ "assignee" :: specAlertFields.drop 9 ∧
    "assignee" ∉ specAlertFields := by
  decide

/-- Claim C8, counterexample: the claim says the Authorization header is
attached exactly when an auth token is present in localStorage, but for a
stored empty-string token (present, yet falsy in JavaScript) the request
interceptor of `api.ts` attaches no header. -/
theorem claim_C8_counterexample :
    (some "" : Option String).isSome = true ∧ authHeader (some "") = none := by
  constructor
  · rfl
  · rfl

/-- Claim C8 (amended): every request attaches `Authorization: Bearer
<token>` exactly when a non-empty auth token is stored (a stored empty
string, being falsy, attaches nothing), and every 401 response removes the
stored token and navigates the browser to /login, while non-401 responses
leave the browser state unchanged. -/
theorem claim_C8_interceptors :
    (∀ s : String, ¬ s = "" → authHeader (some s) = some ("Bearer " ++ s)) ∧
    authHeader none = none ∧
    authHeader (some "") = none ∧
    (∀ b : BrowserState,
      handleResponseError (some 401) b =
        { auth_token := none, href := "/login" }) ∧
    (∀ (st : Option Nat) (b : BrowserState), ¬ st = some 401 →
      handleResponseError st b = b) := by
  refine ⟨fun s hs => ?_, rfl, rfl, fun b => rfl, fun st b hst => ?_⟩
  · simp [authHeader, hs]
  · simp [handleResponseError, hst]

/-- Claim C8, witness: concrete instances of the amended interceptor
behavior. -/
theorem claim_C8_witness :
    authHeader (some "tok") = some ("Bearer " ++ "tok") ∧
    handleResponseError (some 404) { auth_token := some "tok", href := "/" }
      = { auth_token := some "tok", href := "/" } :=
  ⟨claim_C8_interceptors.1 "tok" (by decide),
   claim_C8_interceptors.2.2.2.2 (some 404)
     { auth_token := some "tok", href := "/" } (by decide)⟩

/-- Claim C9: every acknowledgement issued from the Alerts page passes the
constant actor string `CEO`, regardless of which alert is acknowledged. -/
theorem claim_C9_actor :
    ∀ alertId : String,
      (handleAcknowledgeAlert alertId).acknowledged_by = "CEO" ∧
      (handleAcknowledgeAlert alertId).alert_id = alertId :=
  fun _ => ⟨rfl, rfl⟩

/-- Claim C10: the dashboard's critical-issues banner renders on a loaded
summary iff critical alerts or failed deployments are positive or overdue
tickets strictly exceed ten; overdue counts of ten or fewer alone never
trigger it. -/
theorem claim_C10_banner :
    ∀ u : UrgentItems,
      (alertBannerRendered (some u) = true ↔
        (0 < u.critical_alerts ∨ 0 < u.failed_deployments ∨
          10 < u.overdue_tickets)) ∧
      (u.critical_alerts = 0 → u.failed_deployments = 0 →
        u.overdue_tickets ≤ 10 → alertBannerRendered (some u) = false) := by
  intro u
  constructor
  · simp [alertBannerRendered, hasUrgentIssues, or_assoc]
  · intro h1 h2 h3
    simp [alertBannerRendered, hasUrgentIssues, h1, h2]
    omega

/-- Claim C10, witness: a summary with eight overdue tickets and no
critical alerts or failed deployments does not trigger the banner, while
one critical alert does. -/
theorem claim_C10_witness :
    alertBannerRendered (some ⟨0, 0, 8⟩) = false ∧
    alertBannerRendered (some ⟨1, 0, 0⟩) = true :=
  ⟨(claim_C10_banner ⟨0, 0, 8⟩).2 rfl rfl (by decide),
   (claim_C10_banner ⟨1, 0, 0⟩).1.mpr (Or.inl (by decide))⟩

/-- Helper: resolved and unresolved alerts partition a list, so their
counts sum to its length. -/
theorem resolvedCount_add_unresolvedCount (l : List Alert) :
    resolvedCount l + unresolvedCount l = l.length := by
  induction l with
  | nil => rfl
  | cons a s ih =>
    by_cases h : a.status = Status.resolved <;>
      simp [resolvedCount, unresolvedCount, List.filter_cons, h] at ih ⊢ <;>
      omega

/-- Claim C4: the resolution rate of the list summary equals
resolved / (resolved + unresolved) as a percentage over the alerts of the
lookback window, resolved and unresolved counts partition the window, and
an empty window yields a rate of 100%. -/
theorem claim_C4_resolution_rate (now daysBack : Nat) (alerts : List Alert) :
    resolvedCount (windowAlerts now daysBack alerts) +
        unresolvedCount (windowAlerts now daysBack alerts) =
      (windowAlerts now daysBack alerts).length ∧
    ((windowAlerts now daysBack alerts).length = 0 →
      (listSummary now daysBack alerts).resolution_rate = 100) ∧
    (¬ (windowAlerts now daysBack alerts).length = 0 →
      (listSummary now daysBack alerts).resolution_rate =
        100 * (resolvedCount (windowAlerts now daysBack alerts) : ℚ) /
          ((resolvedCount (windowAlerts now daysBack alerts) : ℚ) +
            unresolvedCount (windowAlerts now daysBack alerts))) := by
  have hpart := resolvedCount_add_unresolvedCount (windowAlerts now daysBack alerts)
  refine ⟨hpart, fun h0 => ?_, fun hn => ?_⟩
  · have : resolvedCount (windowAlerts now daysBack alerts) +
        unresolvedCount (windowAlerts now daysBack alerts) = 0 := by omega
    simp [listSummary, resolutionRate, this]
  · have : ¬ (resolvedCount (windowAlerts now daysBack alerts) +
        unresolvedCount (windowAlerts now daysBack alerts) = 0) := by omega
    simp [listSummary, resolutionRate, this]

/-- Claim C4, witness: with no alerts at all the window is empty and the
reported resolution rate is 100%. -/
theorem claim_C4_witness :
    (listSummary 0 7 []).resolution_rate = 100 :=
  (claim_C4_resolution_rate 0 7 []).2.1 rfl

/-- Helper: the out-of-band fraction is invariant under permutation of the
member list. -/
theorem fractionOutside_perm {l₁ l₂ : List ℚ} (h : l₁.Perm l₂) :
    fractionOutside l₁ = fractionOutside l₂ := by
  unfold fractionOutside
  rw [h.countP_eq, h.length_eq]

/-- Claim C7: utilization classification follows the 80–110% band (strictly
below 80 under-utilized, within [80,110] optimal, strictly above 110
over-utilized), the Dashboard's Team Utilization card is green exactly on
the optimal band, membership outside the band is the complement of optimal,
and the resource risk score depends only on the fraction of members outside
the band. -/
theorem claim_C7_bands :
    (∀ u : ℚ, utilizationStatus u = UtilStatus.under ↔ u < 80) ∧
    (∀ u : ℚ, utilizationStatus u = UtilStatus.optimal ↔ 80 ≤ u ∧ u ≤ 110) ∧
    (∀ u : ℚ, utilizationStatus u = UtilStatus.over ↔ 110 < u) ∧
    (∀ u : ℚ, teamUtilizationColor u = KPIColor.green ↔
      utilizationStatus u = UtilStatus.optimal) ∧
    (∀ u : ℚ, outsideBand u = false ↔
      utilizationStatus u = UtilStatus.optimal) ∧
    (∀ l₁ l₂ : List ℚ, fractionOutside l₁ = fractionOutside l₂ →
      resourceScore l₁ = resourceScore l₂) := by
  refine ⟨fun u => ?_, fun u => ?_, fun u => ?_, fun u => ?_, fun u => ?_,
    fun l₁ l₂ h => ?_⟩
  · unfold utilizationStatus
    split_ifs with h1 h2 <;> simp_all <;> linarith
  · unfold utilizationStatus
    split_ifs with h1 h2 <;> simp_all <;> linarith
  · unfold utilizationStatus
    split_ifs with h1 h2 <;> simp_all <;> linarith
  · unfold teamUtilizationColor utilizationStatus
    split_ifs with h1 h2 h3 <;> simp_all <;> linarith
  · unfold outsideBand utilizationStatus
    split_ifs with h1 h2 <;> simp_all <;> linarith
  · unfold resourceScore
    rw [h]

/-- Claim C7, witness: concrete classifications at 75%, 95% and 120%
utilization, the green card at 95%, and equality of resource scores for
teams with the same out-of-band fraction. -/
theorem claim_C7_witness :
    utilizationStatus 75 = UtilStatus.under ∧
    utilizationStatus 95 = UtilStatus.optimal ∧
    utilizationStatus 120 = UtilStatus.over ∧
    teamUtilizationColor 95 = KPIColor.green ∧
    resourceScore [90, 120] = resourceScore [120, 90] :=
  ⟨(claim_C7_bands.1 75).mpr (by decide),
   (claim_C7_bands.2.1 95).mpr (by decide),
   (claim_C7_bands.2.2.1 120).mpr (by decide),
   (claim_C7_bands.2.2.2.1 95).mpr ((claim_C7_bands.2.1 95).mpr (by decide)),
   claim_C7_bands.2.2.2.2.2 [90, 120] [120, 90]
     (fractionOutside_perm (List.Perm.swap 120 90 []))⟩

/-- Claim C6: risk scoring is deterministic — equal input snapshots give
equal delivery, quality, resource and overall scores, and the result does
not depend on the order in which the utilization entries are listed. -/
theorem claim_C6_determinism :
    (∀ i₁ i₂ : RiskInput, i₁ = i₂ → riskScores i₁ = riskScores i₂) ∧
    (∀ i₁ i₂ : RiskInput,
      i₁.stalled_tickets = i₂.stalled_tickets →
      i₁.overdue_tickets = i₂.overdue_tickets →
      i₁.total_active_tickets = i₂.total_active_tickets →
      i₁.deployment_total = i₂.deployment_total →
      i₁.deployment_failed = i₂.deployment_failed →
      i₁.quality_alerts = i₂.quality_alerts →
      i₁.utilizations.Perm i₂.utilizations →
      riskScores i₁ = riskScores i₂) := by
  constructor
  · intro i₁ i₂ h
    rw [h]
  · intro i₁ i₂ h1 h2 h3 h4 h5 h6 hp
    obtain ⟨s1, o1, t1, dt1, df1, q1, u1⟩ := i₁
    obtain ⟨s2, o2, t2, dt2, df2, q2, u2⟩ := i₂
    simp only at h1 h2 h3 h4 h5 h6 hp
    subst h1 h2 h3 h4 h5 h6
    have hr : resourceScore u1 = resourceScore u2 := by
      unfold resourceScore
      rw [fractionOutside_perm hp]
    simp [riskScores, deliveryScore, qualityScore, deploymentFailureRate, hr]

/-- Claim C6, witness: the same snapshot with its two utilization entries
swapped yields identical risk scores. -/
theorem claim_C6_witness :
    riskScores ⟨5, 3, 20, 10, 2, 1, [90, 120]⟩ =
      riskScores ⟨5, 3, 20, 10, 2, 1, [120, 90]⟩ :=
  claim_C6_determinism.2 ⟨5, 3, 20, 10, 2, 1, [90, 120]⟩
    ⟨5, 3, 20, 10, 2, 1, [120, 90]⟩ rfl rfl rfl rfl rfl rfl
    (List.Perm.swap 120 90 [])

/-- Helper: acknowledging preserves identifiers, so lookup after an
acknowledge finds the acknowledged version of the alert it found before. -/
theorem findAlert_ackStore (now : Nat) (actor alertId : String)
    (store : List Alert) (a : Alert) (h : findAlert store alertId = some a) :
    findAlert (ackStore now actor alertId store) alertId =
      some { a with status := Status.acknowledged
                  , acknowledged_at := some now
                  , acknowledged_by := some actor } := by
  unfold findAlert at h ⊢
  unfold ackStore
  rw [List.find?_map]
  have hpred : ((fun x : Alert => decide (x.id = alertId)) ∘ (fun b : Alert =>
      if b.id = alertId then
        { b with status := Status.acknowledged
               , acknowledged_at := some now
               , acknowledged_by := some actor }
      else b)) = fun x : Alert => decide (x.id = alertId) := by
    funext b
    by_cases hb : b.id = alertId <;> simp [hb]
  rw [hpred, h]
  have hid : a.id = alertId := by
    have := List.find?_some h
    simpa using this
  simp [hid]

/-- Claim C3: acknowledge returns NotFound when no alert has the
identifier, InvalidTransition when the found alert is not active, and
otherwise sets status acknowledged together with acknowledged_at/by; a
second acknowledge on the resulting store fails with InvalidTransition, so
the state written by the first call is final. -/
theorem claim_C3_acknowledge (now now₂ : Nat) (actor actor₂ alertId : String)
    (store : List Alert) :
    (findAlert store alertId = none →
      acknowledge now actor alertId store = Except.error AlertError.notFound) ∧
    (∀ a, findAlert store alertId = some a → ¬ a.status = Status.active →
      acknowledge now actor alertId store =
        Except.error AlertError.invalidTransition) ∧
    (∀ a, findAlert store alertId = some a → a.status = Status.active →
      acknowledge now actor alertId store =
        Except.ok (ackStore now actor alertId store) ∧
      findAlert (ackStore now actor alertId store) alertId =
        some { a with status := Status.acknowledged
                    , acknowledged_at := some now
                    , acknowledged_by := some actor } ∧
      acknowledge now₂ actor₂ alertId (ackStore now actor alertId store) =
        Except.error AlertError.invalidTransition) := by
  refine ⟨fun h => ?_, fun a h ha => ?_, fun a h ha => ?_⟩
  · simp [acknowledge, h]
  · simp [acknowledge, h, ha]
  · have hfind := findAlert_ackStore now actor alertId store a h
    refine ⟨by simp [acknowledge, h, ha], hfind, ?_⟩
    simp [acknowledge, hfind]

/-- Claim C3, witness: on a store holding one active alert, acknowledging
it succeeds with the acknowledged store, a second acknowledge fails with
InvalidTransition, and acknowledging an unknown identifier fails with
NotFound. -/
theorem claim_C3_witness :
    acknowledge 2 "CEO" "a1" [sampleActiveAlert] =
      Except.ok (ackStore 2 "CEO" "a1" [sampleActiveAlert]) ∧
    acknowledge 3 "CEO" "a1" (ackStore 2 "CEO" "a1" [sampleActiveAlert]) =
      Except.error AlertError.invalidTransition ∧
    acknowledge 2 "CEO" "missing" [sampleActiveAlert] =
      Except.error AlertError.notFound :=
  ⟨((claim_C3_acknowledge 2 3 "CEO" "CEO" "a1" [sampleActiveAlert]).2.2
      sampleActiveAlert (by decide) rfl).1,
   ((claim_C3_acknowledge 2 3 "CEO" "CEO" "a1" [sampleActiveAlert]).2.2
      sampleActiveAlert (by decide) rfl).2.2,
   (claim_C3_acknowledge 2 3 "CEO" "CEO" "missing" [sampleActiveAlert]).1
     (by decide)⟩

/-- Helper: a per-candidate reconciliation step leaves every alert that is
not an active alert of the candidate's key in the store unchanged. -/
theorem mem_reconcileCandidate_of_untouched {a : Alert} {store : List Alert}
    {c : Candidate} (now : Nat)
    (h : ¬ (a.key = c.key ∧ a.status = Status.active)) (ha : a ∈ store) :
    a ∈ reconcileCandidate now store c := by
  unfold reconcileCandidate
  by_cases hb : hasActiveForKey store c.key
  · simp only [hb, if_true]
    have : (fun b : Alert =>
        if b.key = c.key ∧ b.status = Status.active then
          { b with last_updated := now, context_data := c.context }
        else b) a = a := by
      simp [h]
    exact this ▸ List.mem_map_of_mem _ ha
  · simp only [hb, if_false]
    exact List.mem_append_left _ ha

/-- Helper: folding reconciliation over all candidates leaves an alert
untouched when no candidate targets it. -/
theorem mem_foldl_of_untouched {a : Alert} (now : Nat) :
    ∀ (cands : List Candidate) (store : List Alert),
    (∀ c ∈ cands, ¬ (a.key = c.key ∧ a.status = Status.active)) →
    a ∈ store → a ∈ cands.foldl (reconcileCandidate now) store := by
  intro cands
  induction cands with
  | nil => intro store _ ha; exact ha
  | cons c cs ih =>
    intro store hall ha
    simp only [List.foldl_cons]
    exact ih _ (fun d hd => hall d (List.mem_cons_of_mem c hd))
      (mem_reconcileCandidate_of_untouched now (hall c (List.mem_cons_self c cs)) ha)

/-- Helper: the auto-resolution step sends an active auto-resolvable alert
whose key is absent from the candidate keys to its resolved version. -/
theorem autoResolveStep_fires {a : Alert} {candKeys : List AlertKey}
    (now : Nat) (hact : a.status = Status.active) (hauto : a.auto_resolve = true)
    (habs : candKeys.contains a.key = false) :
    autoResolveStep now candKeys a =
      { a with status := Status.resolved
             , resolved_at := some now
             , resolved_by := some "system"
             , last_updated := now } := by
  unfold autoResolveStep
  rw [if_pos ⟨Or.inl hact, hauto, habs⟩]

/-- Helper: the auto-resolution step never touches a resolved alert. -/
theorem autoResolveStep_resolved {a : Alert} {candKeys : List AlertKey}
    (now : Nat) (hres : a.status = Status.resolved) :
    autoResolveStep now candKeys a = a := by
  unfold autoResolveStep
  simp [hres]

/-- Helper: a resolved alert passes through a whole reconciliation pass
unchanged. -/
theorem reconcile_preserves_resolved {b : Alert} (now : Nat)
    (cands : List Candidate) (store : List Alert) (hb : b ∈ store)
    (hres : b.status = Status.resolved) :
    b ∈ reconcile now cands store := by
  unfold reconcile
  have hmem : b ∈ cands.foldl (reconcileCandidate now) store :=
    mem_foldl_of_untouched now cands store
      (fun c _ hc => by rw [hres] at hc; exact absurd hc.2 (by simp)) hb
  have : autoResolveStep now (cands.map (fun c => c.key)) b = b :=
    autoResolveStep_resolved now hres
  exact this ▸ List.mem_map_of_mem _ hmem

/-- Claim C2: when a reconciliation pass observes the key of an active
auto-resolvable alert absent from the candidate set, the alert transitions
to resolved with resolved_by = "system" and resolved_at set; resolved is
terminal — any later reconciliation pass leaves a resolved alert
unchanged, and acknowledging a resolved alert fails with
InvalidTransition. -/
theorem claim_C2_auto_resolve (now : Nat) (cands : List Candidate)
    (store : List Alert) (a : Alert) (ha : a ∈ store)
    (hact : a.status = Status.active) (hauto : a.auto_resolve = true)
    (habs : (cands.map (fun c => c.key)).contains a.key = false) :
    ({ a with status := Status.resolved
            , resolved_at := some now
            , resolved_by := some "system"
            , last_updated := now } ∈ reconcile now cands store) ∧
    (∀ (now₂ : Nat) (cands₂ : List Candidate) (s₂ : List Alert) (b : Alert),
      b ∈ s₂ → b.status = Status.resolved → b ∈ reconcile now₂ cands₂ s₂) ∧
    (∀ (now₂ : Nat) (actor : String) (s₂ : List Alert) (b : Alert),
      b.status = Status.resolved → findAlert s₂ b.id = some b →
      acknowledge now₂ actor b.id s₂ =
        Except.error AlertError.invalidTransition) := by
  refine ⟨?_, ?_, ?_⟩
  · unfold reconcile
    have hkeys : ∀ c ∈ cands, ¬ (a.key = c.key ∧ a.status = Status.active) := by
      intro c hc hcontra
      have hmemk : a.key ∈ cands.map (fun c => c.key) :=
        hcontra.1 ▸ List.mem_map_of_mem _ hc
      have h2 : (cands.map (fun c => c.key)).contains a.key = true :=
        List.elem_iff.mpr hmemk
      rw [habs] at h2
      exact Bool.false_ne_true h2
    have hmem : a ∈ cands.foldl (reconcileCandidate now) store :=
      mem_foldl_of_untouched now cands store hkeys ha
    have hstep := autoResolveStep_fires now hact hauto habs
    exact hstep ▸ List.mem_map_of_mem _ hmem
  · intro now₂ cands₂ s₂ b hb hres
    exact reconcile_preserves_resolved now₂ cands₂ s₂ hb hres
  · intro now₂ actor s₂ b hres hfind
    simp [acknowledge, hfind, hres]

/-- Claim C2, witness: a reconciliation pass with an empty candidate set
resolves the sample active auto-resolvable alert with resolver "system",
later passes keep the resolved record, and acknowledging it afterwards
fails with InvalidTransition. -/
theorem claim_C2_witness :
    ({ sampleActiveAlert with status := Status.resolved
                            , resolved_at := some 9
                            , resolved_by := some "system"
                            , last_updated := 9 } ∈
      reconcile 9 [] [sampleActiveAlert]) ∧
    acknowledge 10 "CEO"
        ({ sampleActiveAlert with status := Status.resolved
                                , resolved_at := some 9
                                , resolved_by := some "system"
                                , last_updated := 9 } : Alert).id
        [{ sampleActiveAlert with status := Status.resolved
                                , resolved_at := some 9
                                , resolved_by := some "system"
                                , last_updated := 9 }] =
      Except.error AlertError.invalidTransition :=
  ⟨(claim_C2_auto_resolve 9 [] [sampleActiveAlert] sampleActiveAlert
      (List.mem_singleton.mpr rfl) rfl rfl rfl).1,
   (claim_C2_auto_resolve 9 [] [sampleActiveAlert] sampleActiveAlert
      (List.mem_singleton.mpr rfl) rfl rfl rfl).2.2 10 "CEO"
      [{ sampleActiveAlert with status := Status.resolved
                              , resolved_at := some 9
                              , resolved_by := some "system"
                              , last_updated := 9 }]
      { sampleActiveAlert with status := Status.resolved
                             , resolved_at := some 9
                             , resolved_by := some "system"
                             , last_updated := 9 }
      rfl (by decide)⟩

/-- Helper: unfolding the active-alert count over a cons cell. -/
theorem activeCount_cons (a : Alert) (s : List Alert) (k : AlertKey) :
    activeCount (a :: s) k =
      (if a.key = k ∧ a.status = Status.active then 1 else 0) +
        activeCount s k := by
  by_cases h : a.key = k ∧ a.status = Status.active <;>
    simp [activeCount, List.filter_cons, h, Nat.add_comm]

/-- Helper: the empty store has no active alerts for any key. -/
theorem activeCount_nil (k : AlertKey) : activeCount [] k = 0 := rfl

/-- Helper: the active-alert count is additive over list append. -/
theorem activeCount_append (s t : List Alert) (k : AlertKey) :
    activeCount (s ++ t) k = activeCount s k + activeCount t k := by
  simp [activeCount, List.filter_append]

/-- Helper: the query-before-insert lookup succeeds exactly when the key
already has a positive active-alert count. -/
theorem hasActiveForKey_true_iff (store : List Alert) (k : AlertKey) :
    hasActiveForKey store k = true ↔ 0 < activeCount store k := by
  unfold hasActiveForKey activeCount
  rw [List.any_eq_true, List.length_pos]
  constructor
  · rintro ⟨a, ha, hp⟩
    exact List.ne_nil_of_mem (List.mem_filter.mpr ⟨ha, hp⟩)
  · intro hne
    obtain ⟨a, ha⟩ := List.exists_mem_of_ne_nil _ hne
    exact ⟨a, (List.mem_filter.mp ha).1, (List.mem_filter.mp ha).2⟩

/-- Helper: refreshing last_updated and context of the matching active
alerts changes no key or status, hence no active-alert count. -/
theorem activeCount_map_update (now : Nat) (c : Candidate)
    (store : List Alert) (k : AlertKey) :
    activeCount (store.map (fun a =>
      if a.key = c.key ∧ a.status = Status.active then
        { a with last_updated := now, context_data := c.context }
      else a)) k = activeCount store k := by
  induction store with
  | nil => rfl
  | cons a s ih =>
    rw [List.map_cons, activeCount_cons, activeCount_cons, ih]
    by_cases h : a.key = c.key ∧ a.status = Status.active
    · simp [h]
    · simp [h]

/-- Helper: a per-candidate reconciliation step raises the candidate key's
active-alert count to at least one (creating an alert only when none is
active) and leaves every other key's count unchanged. -/
theorem activeCount_reconcileCandidate (now : Nat) (store : List Alert)
    (c : Candidate) (k : AlertKey) :
    activeCount (reconcileCandidate now store c) k =
      if k = c.key then max (activeCount store k) 1
      else activeCount store k := by
  unfold reconcileCandidate
  by_cases hb : hasActiveForKey store c.key
  · rw [if_pos hb, activeCount_map_update]
    by_cases hk : k = c.key
    · have h1 : 0 < activeCount store c.key :=
        (hasActiveForKey_true_iff store c.key).mp hb
      rw [if_pos hk, hk]
      omega
    · rw [if_neg hk]
  · rw [if_neg hb, activeCount_append, activeCount_cons, activeCount_nil]
    have h0 : ¬ 0 < activeCount store c.key :=
      fun hc => hb ((hasActiveForKey_true_iff store c.key).mpr hc)
    by_cases hk : k = c.key
    · rw [if_pos hk, if_pos ⟨hk.symm, rfl⟩, hk]
      omega
    · rw [if_neg (fun h => hk (h.1.symm)), if_neg hk]
      omega

/-- Helper: after folding reconciliation over all candidates, each
candidate key's active-alert count becomes the maximum of its previous
count and one, and other keys keep their counts. -/
theorem activeCount_foldl (now : Nat) :
    ∀ (cands : List Candidate) (store : List Alert) (k : AlertKey),
    activeCount (cands.foldl (reconcileCandidate now) store) k =
      if (cands.map (fun c => c.key)).contains k then
        max (activeCount store k) 1
      else activeCount store k := by
  intro cands
  induction cands with
  | nil => intro store k; simp
  | cons c cs ih =>
    intro store k
    rw [List.foldl_cons, ih, activeCount_reconcileCandidate,
      List.map_cons, List.contains_cons]
    by_cases h1 : k = c.key <;>
      by_cases h2 : (cs.map (fun c => c.key)).contains k = true <;>
      simp [h1, h2] <;> omega

/-- Helper: the auto-resolution step never changes an alert's key. -/
theorem autoResolveStep_key (now : Nat) (cks : List AlertKey) (a : Alert) :
    (autoResolveStep now cks a).key = a.key := by
  unfold autoResolveStep
  split <;> rfl

/-- Helper: the auto-resolution pass can only retire active alerts, never
create them, so no key's active-alert count grows. -/
theorem activeCount_autoResolve_le (now : Nat) (cks : List AlertKey)
    (store : List Alert) (k : AlertKey) :
    activeCount (store.map (autoResolveStep now cks)) k ≤
      activeCount store k := by
  induction store with
  | nil => exact Nat.le_refl 0
  | cons a s ih =>
    rw [List.map_cons, activeCount_cons, activeCount_cons]
    have hhead : (if (autoResolveStep now cks a).key = k ∧
        (autoResolveStep now cks a).status = Status.active then 1 else 0) ≤
        (if a.key = k ∧ a.status = Status.active then 1 else 0) := by
      unfold autoResolveStep
      split
      · simp
      · exact Nat.le_refl _
    omega

/-- Helper: the auto-resolution pass leaves every key that is still among
the candidate keys with its active-alert count intact. -/
theorem activeCount_autoResolve_eq (now : Nat) (cks : List AlertKey)
    (store : List Alert) (k : AlertKey) (hk : cks.contains k = true) :
    activeCount (store.map (autoResolveStep now cks)) k =
      activeCount store k := by
  induction store with
  | nil => rfl
  | cons a s ih =>
    rw [List.map_cons, activeCount_cons, activeCount_cons, ih]
    congr 1
    by_cases ha : a.key = k
    · have heq : autoResolveStep now cks a = a := by
        unfold autoResolveStep
        rw [if_neg]
        rintro ⟨-, -, hcf⟩
        rw [ha, hk] at hcf
        exact Bool.noConfusion hcf
      rw [heq]
    · have hkey := autoResolveStep_key now cks a
      rw [if_neg (fun h => ha (hkey ▸ h.1)), if_neg (fun h => ha h.1)]

/-- Helper: after a per-candidate reconciliation step, every active alert
for that candidate's key carries last_updated = now, whether it was
refreshed or freshly created. -/
theorem last_updated_step_self (now : Nat) (store : List Alert)
    (c : Candidate) :
    ∀ a' ∈ reconcileCandidate now store c,
      a'.key = c.key → a'.status = Status.active → a'.last_updated = now := by
  intro a' h hk hs
  unfold reconcileCandidate at h
  by_cases hb : hasActiveForKey store c.key
  · rw [if_pos hb] at h
    obtain ⟨a, ha, rfl⟩ := List.mem_map.mp h
    by_cases hc : a.key = c.key ∧ a.status = Status.active
    · rw [if_pos hc]
    · rw [if_neg hc] at hk hs
      exact absurd ⟨hk, hs⟩ hc
  · rw [if_neg hb] at h
    rcases List.mem_append.mp h with ha | hnew
    · exfalso
      apply hb
      unfold hasActiveForKey
      rw [List.any_eq_true]
      exact ⟨a', ha, by simp [hk, hs]⟩
    · rw [List.mem_singleton.mp hnew]

/-- Helper: a per-candidate reconciliation step preserves the property
that every active alert of a fixed key has last_updated = now. -/
theorem last_updated_step_preserve (now : Nat) (store : List Alert)
    (c : Candidate) (k : AlertKey)
    (hstore : ∀ a ∈ store,
      a.key = k → a.status = Status.active → a.last_updated = now) :
    ∀ a' ∈ reconcileCandidate now store c,
      a'.key = k → a'.status = Status.active → a'.last_updated = now := by
  intro a' h hk hs
  unfold reconcileCandidate at h
  by_cases hb : hasActiveForKey store c.key
  · rw [if_pos hb] at h
    obtain ⟨a, ha, rfl⟩ := List.mem_map.mp h
    by_cases hc : a.key = c.key ∧ a.status = Status.active
    · rw [if_pos hc]
    · rw [if_neg hc] at hk hs ⊢
      exact hstore a ha hk hs
  · rw [if_neg hb] at h
    rcases List.mem_append.mp h with ha | hnew
    · exact hstore a' ha hk hs
    · rw [List.mem_singleton.mp hnew]

/-- Helper: folding reconciliation over candidates preserves the property
that every active alert of a fixed key has last_updated = now. -/
theorem last_updated_foldl_preserve (now : Nat) (k : AlertKey) :
    ∀ (cands : List Candidate) (store : List Alert),
    (∀ a ∈ store, a.key = k → a.status = Status.active →
      a.last_updated = now) →
    ∀ a' ∈ cands.foldl (reconcileCandidate now) store,
      a'.key = k → a'.status = Status.active → a'.last_updated = now := by
  intro cands
  induction cands with
  | nil => intro store hstore; exact hstore
  | cons c cs ih =>
    intro store hstore
    rw [List.foldl_cons]
    exact ih _ (last_updated_step_preserve now store c k hstore)

/-- Helper: after folding reconciliation over all candidates, every active
alert whose key belongs to one of the candidates has last_updated = now. -/
theorem last_updated_foldl_establish (now : Nat) :
    ∀ (cands : List Candidate) (store : List Alert) (c : Candidate),
    c ∈ cands →
    ∀ a' ∈ cands.foldl (reconcileCandidate now) store,
      a'.key = c.key → a'.status = Status.active → a'.last_updated = now := by
  intro cands
  induction cands with
  | nil => intro store c hc; exact absurd hc (List.not_mem_nil c)
  | cons d ds ih =>
    intro store c hc a' h hk hs
    rw [List.foldl_cons] at h
    rcases List.mem_cons.mp hc with hcd | hcs
    · subst hcd
      exact last_updated_foldl_preserve now c.key ds _
        (last_updated_step_self now store c) a' h hk hs
    · exact ih _ c hcs a' h hk hs

/-- Helper: after a full reconciliation pass, every active alert whose key
belongs to one of the candidates has last_updated = now. -/
theorem last_updated_reconcile (now : Nat) (cands : List Candidate)
    (store : List Alert) (c : Candidate) (hc : c ∈ cands) :
    ∀ a' ∈ reconcile now cands store,
      a'.key = c.key → a'.status = Status.active → a'.last_updated = now := by
  intro a' h hk hs
  unfold reconcile at h
  obtain ⟨b, hb, rfl⟩ := List.mem_map.mp h
  by_cases hcond : (b.status = Status.active ∨ b.status = Status.acknowledged) ∧
      b.auto_resolve = true ∧
      (cands.map (fun c => c.key)).contains b.key = false
  · exfalso
    unfold autoResolveStep at hs
    rw [if_pos hcond] at hs
    exact Status.noConfusion hs
  · have heq : autoResolveStep now (cands.map (fun c => c.key)) b = b := by
      unfold autoResolveStep
      rw [if_neg hcond]
    rw [heq] at hk hs ⊢
    exact last_updated_foldl_establish now cands store c hc b hb hk hs

/-- Claim C1: on a store with at most one active alert per
(alert_type, source-entity) key, a reconciliation pass preserves that
invariant, leaves exactly one active alert for every candidate key (a
matched candidate refreshes the existing alert instead of duplicating it),
and every active alert at a candidate key has its last_updated advanced to
the pass time. -/
theorem claim_C1_reconcile_unique (now : Nat) (cands : List Candidate)
    (store : List Alert) (hinv : AtMostOneActive store) :
    AtMostOneActive (reconcile now cands store) ∧
    (∀ c ∈ cands, activeCount (reconcile now cands store) c.key = 1) ∧
    (∀ c ∈ cands, ∀ a ∈ reconcile now cands store,
      a.key = c.key → a.status = Status.active → a.last_updated = now) := by
  refine ⟨?_, ?_, fun c hc a ha hk hs =>
    last_updated_reconcile now cands store c hc a ha hk hs⟩
  · intro k
    unfold reconcile
    have h1 := activeCount_autoResolve_le now (cands.map (fun c => c.key))
      (cands.foldl (reconcileCandidate now) store) k
    have h2 := activeCount_foldl now cands store k
    have h3 := hinv k
    by_cases hk : (cands.map (fun c => c.key)).contains k = true
    · rw [if_pos hk] at h2
      omega
    · rw [if_neg hk] at h2
      omega
  · intro c hc
    unfold reconcile
    have hk : (cands.map (fun c => c.key)).contains c.key = true :=
      List.elem_iff.mpr (List.mem_map_of_mem _ hc)
    rw [activeCount_autoResolve_eq now _ _ _ hk, activeCount_foldl, if_pos hk]
    have h3 := hinv c.key
    omega

/-- Claim C1, witness: reconciling the sample candidate against the empty
store creates exactly one active alert for its key. -/
theorem claim_C1_witness :
    activeCount (reconcile 5 [sampleCandidate] []) sampleCandidate.key = 1 :=
  (claim_C1_reconcile_unique 5 [sampleCandidate] []
      (fun k => le_trans (Nat.le_of_eq (activeCount_nil k)) (Nat.zero_le 1))).2.1
    sampleCandidate (List.mem_singleton.mpr rfl)

end AlertEngine
